import Mathlib

/-!
Shallow embedding of `hf_watcher.py` (Harbor Freight price watcher) and proofs
about its extraction pipeline, fetch retry loop and run orchestrator.

Conventions of the embedding:
* Python strings are Lean `String` (a structure over `List Char` in this toolchain).
* Python floats used for prices/thresholds are modelled as `Rat`; only ordering,
  equality and small arithmetic on them matter to the code under study.
* `requests` responses, `json.loads` results of the JSON-LD regex matches and the
  two `og:` meta regexes are modelled as an `HtmlDoc` record holding the raw body
  (scanned for bot markers exactly as the source scans it) together with the parts
  those regexes would extract.
* Exceptions that the Python code does not catch are surfaced as explicit
  `raised` / `none` results so that crash behaviour is part of the model.
-/

/-- Helper for `containsSub`: scans every suffix of the haystack. -/
def containsSubAux (pat : List Char) : List Char → Bool
  | [] => pat.isEmpty
  | c :: rest => pat.isPrefixOf (c :: rest) || containsSubAux pat rest

/-- Python's substring test `pat in s` on strings. -/
def containsSub (s pat : String) : Bool :=
  containsSubAux pat.data s.data

/-- Numeric value of a list of decimal digit characters (most significant first). -/
def digitsVal (cs : List Char) : Nat :=
  cs.foldl (fun a c => a * 10 + (c.toNat - 48)) 0

/-- Python `str.strip()`: drop whitespace from both ends. -/
def pyStrip (cs : List Char) : List Char :=
  ((cs.dropWhile Char.isWhitespace).reverse.dropWhile Char.isWhitespace).reverse

/-- Model of Python `float(s)` on strings restricted to plain decimal literals:
optional surrounding whitespace, optional sign, digits with at most one dot
(at least one digit overall). Inputs outside this shape yield `none`, which in the
source corresponds to `float` raising `ValueError`. (Exponents, `inf`/`nan` and
underscores are not needed by anything proved here and are mapped to `none`.) -/
def pyFloat? (s : String) : Option Rat :=
  let cs := pyStrip s.data
  let body : List Char :=
    match cs with
    | '-' :: r => r
    | '+' :: r => r
    | r => r
  let isNeg : Bool :=
    match cs with
    | '-' :: _ => true
    | _ => false
  let ip := body.takeWhile (fun c => c != '.')
  let rest := body.dropWhile (fun c => c != '.')
  if ip.all Char.isDigit then
    match rest with
    | [] =>
      if ip.isEmpty then none
      else some (if isNeg then -(digitsVal ip : Rat) else (digitsVal ip : Rat))
    | _ :: fp =>
      if fp.all Char.isDigit && !(fp.contains '.') && !(ip.isEmpty && fp.isEmpty) then
        let mag : Rat := (digitsVal ip : Rat) + (digitsVal fp : Rat) / ((10 : Rat) ^ fp.length)
        some (if isNeg then -mag else mag)
      else none
  else none

/-- Source lines 67-70: `re.search(r"-(\d+)\.html$", url)`, returning group 1.
Because the pattern is anchored at the end of the string, a match exists exactly
when the url ends in `".html"` preceded by a nonempty maximal run of digits that
is itself preceded by a `'-'`; the group is that digit run. -/
def extract_sku_from_url (url : String) : Option String :=
  match url.data.reverse with
  | 'l' :: 'm' :: 't' :: 'h' :: '.' :: rest =>
    let ds := rest.takeWhile Char.isDigit
    match rest.dropWhile Char.isDigit with
    | '-' :: _ => if ds.isEmpty then none else some (String.mk ds.reverse)
    | _ => none
  | _ => none

/-- Source lines 22-27: the fixed pool of User-Agent strings. -/
def USER_AGENTS : List String :=
  [ "Mozilla/5.0 (Windows NT 10.0; Win64; x64) AppleWebKit/537.36 (KHTML, like Gecko) Chrome/121.0.0.0 Safari/537.36"
  , "Mozilla/5.0 (Macintosh; Intel Mac OS X 10_15_7) AppleWebKit/537.36 (KHTML, like Gecko) Chrome/121.0.0.0 Safari/537.36"
  , "Mozilla/5.0 (Windows NT 10.0; Win64; x64; rv:122.0) Gecko/20100101 Firefox/122.0"
  , "Mozilla/5.0 (Macintosh; Intel Mac OS X 10_15_7) AppleWebKit/605.1.15 (KHTML, like Gecko) Version/17.2 Safari/605.1.15" ]

/-- The literal `Sec-Ch-Ua` value hard-coded at source line 83. -/
def SEC_CH_UA_VALUE : String :=
  "\"Not A(Brand\";v=\"99\", \"Google Chrome\";v=\"121\", \"Chromium\";v=\"121\""

/-- The header fields of `get_headers` that vary or identify the browser; the
remaining fields of the dict at lines 76-91 are fixed literals independent of the
chosen User-Agent and are not read anywhere else in the program. -/
structure Headers where
  userAgent : String
  secChUa : String
  secChUaPlatform : String
deriving DecidableEq

/-- Source lines 73-91 with the `random.choice` made explicit: given the chosen
User-Agent, build the header set. `Sec-Ch-Ua-Platform` is `"Windows"` when the
substring `"Windows"` occurs in the UA and `"macOS"` otherwise; `Sec-Ch-Ua` is the
fixed Chrome brand list regardless of the UA. -/
def get_headers (ua : String) : Headers :=
  { userAgent := ua
  , secChUa := SEC_CH_UA_VALUE
  , secChUaPlatform := if containsSub ua "Windows" then "\"Windows\"" else "\"macOS\"" }

/-- Operating-system ground truth read off a User-Agent string. -/
inductive BrowserOS where
  | windows
  | macos
  | other
deriving DecidableEq

/-- Browser-family ground truth read off a User-Agent string. -/
inductive BrowserFamily where
  | chrome
  | firefox
  | safari
  | otherFamily
deriving DecidableEq

/-- OS a User-Agent string advertises. -/
def uaOS (ua : String) : BrowserOS :=
  if containsSub ua "Windows NT" then BrowserOS.windows
  else if containsSub ua "Mac OS X" then BrowserOS.macos
  else BrowserOS.other

/-- Browser family a User-Agent string advertises (Firefox checked first because
Chrome UAs also contain "Safari/" while Firefox UAs contain neither). -/
def uaFamily (ua : String) : BrowserFamily :=
  if containsSub ua "Firefox/" then BrowserFamily.firefox
  else if containsSub ua "Chrome/" then BrowserFamily.chrome
  else if containsSub ua "Safari/" then BrowserFamily.safari
  else BrowserFamily.otherFamily

/-- Browser family advertised by a `Sec-Ch-Ua` brand-list value. -/
def brandFamily (secChUa : String) : BrowserFamily :=
  if containsSub secChUa "Google Chrome" || containsSub secChUa "Chromium" then BrowserFamily.chrome
  else if containsSub secChUa "Firefox" then BrowserFamily.firefox
  else BrowserFamily.otherFamily

/-- OS advertised by a `Sec-Ch-Ua-Platform` value. -/
def platformOS (p : String) : BrowserOS :=
  if p = "\"Windows\"" then BrowserOS.windows
  else if p = "\"macOS\"" then BrowserOS.macos
  else BrowserOS.other

/-- Bot-protection marker test at source line 96: `"PerimeterX" in html or "px-captcha" in html`. -/
def hasBotMarkers (html : String) : Bool :=
  containsSub html "PerimeterX" || containsSub html "px-captcha"

/-- One JSON-LD script block matched by the regex at source line 100, after the
`json.loads` attempt at line 105: `malformed` when `json.loads` raises
`JSONDecodeError`; otherwise the fields the source reads from the decoded object:
`data.get("@type")`, `data.get("name")`, `data.get("sku")`, and from
`data.get("offers", {})` the raw `price` value (the text handed to `float`,
`none` when absent so the source's default `0` applies) and `availability`.
A decoded `@type` that is not the string "Product" compares unequal at line 106
exactly like an absent one, so both are modelled as values other than
`some "Product"`. -/
inductive LdCandidate where
  | malformed
  | parsed (typ name sku price availability : Option String)
deriving DecidableEq

/-- The success dict built by `parse_price_from_html` (lines 108-113 / 121-126). -/
structure PriceRecord where
  name : Option String
  sku : Option String
  price : Rat
  availability : String
deriving DecidableEq

/-- Result of `parse_price_from_html`: the two error dicts, a success dict, or an
uncaught exception escaping the function (`raised`). -/
inductive ParseResult where
  | blocked
  | unparseable
  | record (r : PriceRecord)
  | raised
deriving DecidableEq

/-- An HTML response body as `parse_price_from_html` observes it: the raw text
(only scanned for the bot markers of line 96), the JSON-LD blocks the line-100
regex finds in document order, and the contents of the `og:price:amount` and
`og:title` meta attributes found by the regexes at lines 118-119. -/
structure HtmlDoc where
  body : String
  ldBlocks : List LdCandidate
  ogPrice : Option String
  ogTitle : Option String
deriving DecidableEq

/-- The loop at source lines 103-115: first Product block whose price value
coerces wins; `json.loads` failures, non-Product blocks and `float` failures
(`ValueError`, caught at line 114) are skipped. An absent offers price defaults
to `float(0) = 0`. -/
def scanLd : List LdCandidate → Option PriceRecord
  | [] => none
  | LdCandidate.malformed :: rest => scanLd rest
  | LdCandidate.parsed typ nm sk pr av :: rest =>
    if typ = some "Product" then
      match pr with
      | none => some { name := nm, sku := sk, price := 0, availability := av.getD "" }
      | some s =>
        match pyFloat? s with
        | some q => some { name := nm, sku := sk, price := q, availability := av.getD "" }
        | none => scanLd rest
    else scanLd rest

/-- Source lines 94-128. Marker check first (line 96); then the JSON-LD loop;
then the `og:price:amount` fallback, whose `float(og_price.group(1))` at line 124
is NOT inside any try/except: a non-coercible value there raises `ValueError`
out of the function, modelled as `ParseResult.raised`. -/
def parse_price_from_html (doc : HtmlDoc) (url : String) : ParseResult :=
  if hasBotMarkers doc.body then ParseResult.blocked
  else
    match scanLd doc.ldBlocks with
    | some r => ParseResult.record r
    | none =>
      match doc.ogPrice with
      | some s =>
        match pyFloat? s with
        | some q =>
          ParseResult.record
            { name := some (doc.ogTitle.getD "Unknown")
            , sku := extract_sku_from_url url
            , price := q
            , availability := "unknown" }
        | none => ParseResult.raised
      | none => ParseResult.unparseable

/-- One network attempt as the try-body at lines 142-143 observes it: either
`requests.get` raised a `RequestException` carrying a message, or it returned a
response with a status code and a body. -/
inductive AttemptOutcome where
  | exc (msg : String)
  | resp (status : Nat) (doc : HtmlDoc)
deriving DecidableEq

/-- Result of `fetch_price`: a success dict, one of the error dicts (the string
is the dict's "error" value), or an exception the function does not catch
(`raised` — `except` at line 160 only catches `requests.RequestException`). -/
inductive FetchResult where
  | record (r : PriceRecord)
  | error (msg : String)
  | raised
deriving DecidableEq

/-- Source line 29. -/
def MAX_RETRIES : Nat := 3

/-- The body of one iteration of the retry loop (lines 136-162): `Sum.inl reason`
when the iteration ends in `continue` with `last_error = reason`, `Sum.inr r`
when it returns (or propagates an uncaught exception). Order as in the source:
the 403 check (line 146) precedes `raise_for_status` (line 150, raises an
`HTTPError`, a `RequestException`, for status 400-599, caught at line 160), then
the parse; a "bot protection" error dict retries (line 154), every other parse
outcome is returned as-is. -/
def attemptStep (url : String) (o : AttemptOutcome) : Sum String FetchResult :=
  match o with
  | AttemptOutcome.exc msg => Sum.inl msg
  | AttemptOutcome.resp status doc =>
    if status == 403 then Sum.inl "403 Forbidden"
    else if 400 ≤ status && status < 600 then Sum.inl ("HTTP error " ++ toString status)
    else
      match parse_price_from_html doc url with
      | ParseResult.blocked => Sum.inl "Blocked by bot protection"
      | ParseResult.unparseable => FetchResult.error "Could not parse price from page" |> Sum.inr
      | ParseResult.record r => FetchResult.record r |> Sum.inr
      | ParseResult.raised => FetchResult.raised |> Sum.inr

/-- The retry loop of `fetch_price` over the remaining attempts, also counting how
many attempts were consumed. When the attempt list is exhausted the line-164
message is built from `MAX_RETRIES` and the last recorded reason (`last_error`
starts as Python `None`, rendered "None" by the f-string, though with
`MAX_RETRIES = 3 > 0` settings that case is unreachable). -/
def fetch_go (url : String) : List AttemptOutcome → Option String → FetchResult × Nat
  | [], last =>
    (FetchResult.error ("Failed after " ++ toString MAX_RETRIES ++ " attempts: " ++ last.getD "None"), 0)
  | o :: rest, _ =>
    match attemptStep url o with
    | Sum.inl reason =>
      let p := fetch_go url rest (some reason)
      (p.1, p.2 + 1)
    | Sum.inr r => (r, 1)

/-- Source lines 131-164: run the retry loop over `MAX_RETRIES` attempts drawn
from the attempt source `att` (attempt index to network outcome; the sleeps at
lines 137-140 have no observable effect on the result). -/
def fetch_price (att : Nat → AttemptOutcome) (url : String) : FetchResult :=
  (fetch_go url ((List.range MAX_RETRIES).map att) none).1

/-- Number of network attempts `fetch_price` performs for the same inputs. -/
def fetch_price_attempts (att : Nat → AttemptOutcome) (url : String) : Nat :=
  (fetch_go url ((List.range MAX_RETRIES).map att) none).2

/-- One entry of the persisted state's "prices" mapping (source lines 198-203). -/
structure SnapshotEntry where
  price : Rat
  name : Option String
  url : String
  last_checked : String
deriving DecidableEq

/-- The "prices" mapping of the state dict, as an insertion-ordered association
list with Python-dict semantics (one binding per key). -/
abbrev Snapshot := List (String × SnapshotEntry)

/-- Python dict lookup `m.get(k)` on a snapshot. -/
def dget : Snapshot → String → Option SnapshotEntry
  | [], _ => none
  | (k', v) :: rest, k => if k' = k then some v else dget rest k

/-- Python dict assignment `m[k] = v`: overwrite in place or append. -/
def dinsert : Snapshot → String → SnapshotEntry → Snapshot
  | [], k, v => [(k, v)]
  | (k', v') :: rest, k, v =>
    if k' = k then (k, v) :: rest else (k', v') :: dinsert rest k v

/-- Key list of a snapshot. -/
def dkeys (m : Snapshot) : List String :=
  m.map (fun p => p.1)

/-- A watchlist item as `check_prices` reads it (lines 177-179): `item["url"]`,
`item.get("threshold")`, `item.get("name", "Unknown Item")`. -/
structure Item where
  url : String
  threshold : Option Rat
  name : Option String
deriving DecidableEq

/-- An alert dict appended at source lines 210-217. -/
structure Alert where
  name : String
  sku : String
  price : Rat
  threshold : Rat
  previous_price : Option Rat
  url : String
deriving DecidableEq

/-- Accumulated run output: `alerts`, `new_state["prices"]`, and the per-target
failure lines printed at source line 187 (the only prints whose content later
claims refer to; the purely informational progress prints are not modelled). -/
structure RunState where
  alerts : List Alert
  prices : Snapshot
  log : List String
deriving DecidableEq

/-- Source line 180: `extract_sku_from_url(url) or "unknown"` (the extracted SKU
is a nonempty digit string, never falsy, so `or` only replaces `None`). -/
def sku_key (url : String) : String :=
  (extract_sku_from_url url).getD "unknown"

/-- Source line 208: `previous_price is not None and previous_price <= threshold`. -/
def was_below_py (previous : Option Rat) (t : Rat) : Bool :=
  match previous with
  | some p => decide (p ≤ t)
  | none => false

/-- Python `a or b` for an optional string `a` (source line 211): falsy values
(`None`, `""`) fall back to `b`. -/
def pyOr (a : Option String) (b : String) : String :=
  match a with
  | some s => if s = "" then b else s
  | none => b

/-- One iteration of the target loop of `check_prices` (source lines 177-218),
acting on the accumulated `RunState`. `none` models the iteration raising an
exception that aborts the whole run; that happens in exactly two places:
* `fetch_price` propagates an uncaught exception (the line-124 `ValueError`), and
* on fetch success with `threshold = None`, the f-string `f"{threshold:.2f}"` at
  line 196 raises `TypeError` before the state is updated.
Otherwise: a fetch error is logged and the prior entry for the SKU key is copied
forward if one exists (lines 186-191); on success the fresh entry is written
(lines 198-203) and the alert logic of lines 206-217 runs. -/
def check_item (att : Nat → AttemptOutcome) (ts : String) (prior : Snapshot)
    (st : RunState) (item : Item) : Option RunState :=
  let url := item.url
  let dname := item.name.getD "Unknown Item"
  let sku := sku_key url
  match fetch_price att url with
  | FetchResult.raised => none
  | FetchResult.error msg =>
    some { st with
      log := st.log ++ ["  Error: " ++ msg]
      prices :=
        match dget prior sku with
        | some e => dinsert st.prices sku e
        | none => st.prices }
  | FetchResult.record r =>
    match item.threshold with
    | none => none
    | some t =>
      let current := r.price
      let previous : Option Rat := (dget prior sku).map SnapshotEntry.price
      let st1 : RunState :=
        { st with prices := dinsert st.prices sku ⟨current, r.name, url, ts⟩ }
      if t ≠ 0 ∧ current ≤ t then
        if was_below_py previous t then some st1
        else some { st1 with alerts := st1.alerts ++
          [{ name := pyOr r.name dname, sku := sku, price := current, threshold := t
           , previous_price := previous, url := url }] }
      else some st1

/-- The target loop of `check_prices`, threading the item index `i` used to pick
that item's attempt source from the network environment `env` (the inter-item
sleep at lines 174-176 has no observable effect on the result). -/
def check_prices_go (env : Nat → Nat → AttemptOutcome) (ts : String) (prior : Snapshot) :
    Nat → List Item → RunState → Option RunState
  | _, [], st => some st
  | i, item :: rest, st =>
    match check_item (env i) ts prior st item with
    | none => none
    | some st' => check_prices_go env ts prior (i + 1) rest st'

/-- Source lines 167-220: `check_prices(items, previous_state)`. `env i` is the
attempt source seen by the `fetch_price` call for the i-th item, `ts` the
`datetime.now().isoformat()` timestamp, `prior` the prior state's "prices"
mapping. `none` models the run being aborted by an uncaught exception. -/
def check_prices (env : Nat → Nat → AttemptOutcome) (ts : String)
    (items : List Item) (prior : Snapshot) : Option RunState :=
  check_prices_go env ts prior 0 items { alerts := [], prices := [], log := [] }

theorem dget_dinsert_self (m : Snapshot) (k : String) (v : SnapshotEntry) :
    dget (dinsert m k v) k = some v := by
  induction m with
  | nil => simp [dget, dinsert]
  | cons p rest ih =>
    obtain ⟨k', v'⟩ := p
    by_cases h : k' = k
    · simp [dinsert, h, dget]
    · simp [dinsert, h, dget, ih]

theorem dget_dinsert_ne (m : Snapshot) (k k' : String) (v : SnapshotEntry) (h : k' ≠ k) :
    dget (dinsert m k v) k' = dget m k' := by
  induction m with
  | nil => simp [dget, dinsert, Ne.symm h]
  | cons p rest ih =>
    obtain ⟨k0, v0⟩ := p
    by_cases h0 : k0 = k
    · subst h0
      simp [dinsert, dget, Ne.symm h]
    · simp only [dinsert, if_neg h0, dget]
      by_cases h1 : k0 = k'
      · simp [h1]
      · simp [h1, ih]

theorem dget_dinsert_isSome (m : Snapshot) (k k' : String) (v : SnapshotEntry)
    (h : (dget m k').isSome) : (dget (dinsert m k v) k').isSome := by
  by_cases hk : k' = k
  · subst hk
    simp [dget_dinsert_self]
  · rw [dget_dinsert_ne m k k' v hk]
    exact h

theorem mem_dkeys_iff (m : Snapshot) (k : String) :
    k ∈ dkeys m ↔ (dget m k).isSome := by
  induction m with
  | nil => simp [dkeys, dget]
  | cons p rest ih =>
    obtain ⟨k', v'⟩ := p
    by_cases h : k' = k
    · simp [dkeys, dget, h]
    · simp only [dkeys, List.map_cons, List.mem_cons, dget, if_neg h]
      constructor
      · intro hmem
        rcases hmem with hmem | hmem
        · exact absurd hmem.symm h
        · exact (ih.mp (by simpa [dkeys] using hmem))
      · intro hs
        exact Or.inr (by simpa [dkeys] using ih.mpr hs)

theorem check_item_error_spec (att : Nat → AttemptOutcome) (ts : String) (prior : Snapshot)
    (st : RunState) (item : Item) (msg : String)
    (hf : fetch_price att item.url = FetchResult.error msg) :
    check_item att ts prior st item =
      some { st with
        log := st.log ++ ["  Error: " ++ msg]
        prices :=
          match dget prior (sku_key item.url) with
          | some e => dinsert st.prices (sku_key item.url) e
          | none => st.prices } := by
  simp only [check_item, hf]

theorem check_item_success_spec (att : Nat → AttemptOutcome) (ts : String) (prior : Snapshot)
    (st : RunState) (item : Item) (t : Rat) (r : PriceRecord)
    (hT : item.threshold = some t) (hf : fetch_price att item.url = FetchResult.record r) :
    check_item att ts prior st item =
      some { alerts := st.alerts ++
               (if t ≠ 0 ∧ r.price ≤ t ∧
                   was_below_py ((dget prior (sku_key item.url)).map SnapshotEntry.price) t = false
                then [⟨pyOr r.name (item.name.getD "Unknown Item"), sku_key item.url, r.price, t,
                       (dget prior (sku_key item.url)).map SnapshotEntry.price, item.url⟩]
                else [])
           , prices := dinsert st.prices (sku_key item.url) ⟨r.price, r.name, item.url, ts⟩
           , log := st.log } := by
  simp only [check_item, hf, hT]
  by_cases h1 : t ≠ 0 ∧ r.price ≤ t
  · rw [if_pos h1]
    cases hwb : was_below_py ((dget prior (sku_key item.url)).map SnapshotEntry.price) t
    · simp [hwb, h1.1, h1.2]
    · simp [hwb, h1.1, h1.2]
  · rw [if_neg h1]
    have h2 : ¬(t ≠ 0 ∧ r.price ≤ t ∧
        was_below_py ((dget prior (sku_key item.url)).map SnapshotEntry.price) t = false) := by
      intro h
      exact h1 ⟨h.1, h.2.1⟩
    simp [h2]

theorem check_item_key_mono (att : Nat → AttemptOutcome) (ts : String) (prior : Snapshot)
    (st st' : RunState) (item : Item) (k : String)
    (h : check_item att ts prior st item = some st')
    (hk : (dget st.prices k).isSome) : (dget st'.prices k).isSome := by
  cases hf : fetch_price att item.url with
  | record r =>
    cases hT : item.threshold with
    | none =>
      simp only [check_item, hf, hT] at h
      exact Option.noConfusion h
    | some t =>
      rw [check_item_success_spec att ts prior st item t r hT hf] at h
      have h' := Option.some.inj h
      subst h'
      exact dget_dinsert_isSome _ _ _ _ hk
  | error msg =>
    rw [check_item_error_spec att ts prior st item msg hf] at h
    have h' := Option.some.inj h
    subst h'
    cases hp : dget prior (sku_key item.url) with
    | none => simpa [hp] using hk
    | some e =>
      simp only [hp]
      exact dget_dinsert_isSome _ _ _ _ hk
  | raised =>
    simp only [check_item, hf] at h
    exact Option.noConfusion h

theorem check_item_writes_key (att : Nat → AttemptOutcome) (ts : String) (prior : Snapshot)
    (st st' : RunState) (item : Item)
    (h : check_item att ts prior st item = some st')
    (hk : (dget prior (sku_key item.url)).isSome) :
    (dget st'.prices (sku_key item.url)).isSome := by
  cases hf : fetch_price att item.url with
  | record r =>
    cases hT : item.threshold with
    | none =>
      simp only [check_item, hf, hT] at h
      exact Option.noConfusion h
    | some t =>
      rw [check_item_success_spec att ts prior st item t r hT hf] at h
      have h' := Option.some.inj h
      subst h'
      simp [dget_dinsert_self]
  | error msg =>
    rw [check_item_error_spec att ts prior st item msg hf] at h
    have h' := Option.some.inj h
    subst h'
    cases hp : dget prior (sku_key item.url) with
    | none => rw [hp] at hk; simp at hk
    | some e =>
      simp only [hp]
      simp [dget_dinsert_self]
  | raised =>
    simp only [check_item, hf] at h
    exact Option.noConfusion h

theorem check_prices_go_key_mono (env : Nat → Nat → AttemptOutcome) (ts : String)
    (prior : Snapshot) :
    ∀ (items : List Item) (i : Nat) (st st' : RunState) (k : String),
    check_prices_go env ts prior i items st = some st' →
    (dget st.prices k).isSome → (dget st'.prices k).isSome := by
  intro items
  induction items with
  | nil =>
    intro i st st' k h hk
    simp only [check_prices_go] at h
    have h' := Option.some.inj h
    subst h'
    exact hk
  | cons item rest ih =>
    intro i st st' k h hk
    cases hstep : check_item (env i) ts prior st item with
    | none =>
      simp only [check_prices_go, hstep] at h
      exact Option.noConfusion h
    | some st1 =>
      simp only [check_prices_go, hstep] at h
      exact ih (i + 1) st1 st' k h (check_item_key_mono _ _ _ _ _ _ _ hstep hk)

theorem check_prices_go_prior_key (env : Nat → Nat → AttemptOutcome) (ts : String)
    (prior : Snapshot) :
    ∀ (items : List Item) (i : Nat) (st st' : RunState) (k : String),
    check_prices_go env ts prior i items st = some st' →
    (dget prior k).isSome →
    (∃ item ∈ items, sku_key item.url = k) →
    (dget st'.prices k).isSome := by
  intro items
  induction items with
  | nil =>
    intro i st st' k _ _ hmem
    rcases hmem with ⟨it, hit, _⟩
    simp at hit
  | cons item rest ih =>
    intro i st st' k h hk hmem
    cases hstep : check_item (env i) ts prior st item with
    | none =>
      simp only [check_prices_go, hstep] at h
      exact Option.noConfusion h
    | some st1 =>
      simp only [check_prices_go, hstep] at h
      rcases hmem with ⟨it, hit, hkey⟩
      rcases List.mem_cons.mp hit with rfl | hit'
      · have hw : (dget st1.prices (sku_key it.url)).isSome :=
          check_item_writes_key _ _ _ _ _ _ hstep (by rwa [hkey])
        rw [hkey] at hw
        exact check_prices_go_key_mono env ts prior rest (i + 1) st1 st' k h hw
      · exact ih (i + 1) st1 st' k h hk ⟨it, hit', hkey⟩

theorem takeWhile_all_append (q : Char → Bool) (l1 : List Char) (c : Char) (l2 : List Char)
    (h1 : l1.all q = true) (hc : q c = false) :
    (l1 ++ c :: l2).takeWhile q = l1 := by
  induction l1 with
  | nil => simp [List.takeWhile_cons, hc]
  | cons a l ih =>
    simp only [List.all_cons, Bool.and_eq_true] at h1
    simp [List.takeWhile_cons, h1.1, ih h1.2]

theorem dropWhile_all_append (q : Char → Bool) (l1 : List Char) (c : Char) (l2 : List Char)
    (h1 : l1.all q = true) (hc : q c = false) :
    (l1 ++ c :: l2).dropWhile q = c :: l2 := by
  induction l1 with
  | nil => simp [List.dropWhile_cons, hc]
  | cons a l ih =>
    simp only [List.all_cons, Bool.and_eq_true] at h1
    simp [List.dropWhile_cons, h1.1, ih h1.2]

theorem ne_empty_data_ne (d : String) (h : d ≠ "") : d.data ≠ [] := by
  intro hc
  apply h
  apply String.ext
  simp [hc]

/-- C8: SKU derivation. For every URL of the form `p ++ "-" ++ digits ++ ".html"`
(digits nonempty), `extract_sku_from_url` returns exactly that digit run; and
whenever it returns a value, the URL has that form — so a URL without the
trailing dash-digits-".html" pattern yields `none`. -/
theorem c8_sku_derivation (url : String) :
    (∀ p d : String, d ≠ "" → d.data.all Char.isDigit = true →
      url = p ++ "-" ++ d ++ ".html" → extract_sku_from_url url = some d) ∧
    (∀ s : String, extract_sku_from_url url = some s →
      s ≠ "" ∧ s.data.all Char.isDigit = true ∧ ∃ p : String, url = p ++ "-" ++ s ++ ".html") := by
  constructor
  · intro p d hne hdig hurl
    have hdata : url.data = ((p.data ++ ['-']) ++ d.data) ++ ['.', 'h', 't', 'm', 'l'] := by
      rw [hurl]; rfl
    have hrev : url.data.reverse =
        'l' :: 'm' :: 't' :: 'h' :: '.' :: (d.data.reverse ++ '-' :: p.data.reverse) := by
      rw [hdata]
      simp [List.reverse_append]
    have hdigrev : d.data.reverse.all Char.isDigit = true := by
      rw [List.all_reverse]
      exact hdig
    have hds := takeWhile_all_append Char.isDigit d.data.reverse '-' p.data.reverse hdigrev (by decide)
    have hdr := dropWhile_all_append Char.isDigit d.data.reverse '-' p.data.reverse hdigrev (by decide)
    have hne2 : d.data.reverse.isEmpty = false := by
      cases hl : d.data.reverse with
      | nil =>
        exact absurd (by simpa using congrArg List.reverse hl) (ne_empty_data_ne d hne)
      | cons a l => rfl
    simp only [extract_sku_from_url, hrev, hds, hdr, hne2, Bool.false_eq_true, if_false,
      List.reverse_reverse]
  · intro s h
    simp only [extract_sku_from_url] at h
    split at h
    next rest heq =>
      split at h
      next tail heq2 =>
        split at h
        next hemp => exact Option.noConfusion h
        next hemp =>
          have hs := Option.some.inj h
          have hdne : rest.takeWhile Char.isDigit ≠ [] := by
            intro hc
            rw [hc] at hemp
            exact hemp rfl
          refine ⟨?_, ?_, String.mk tail.reverse, ?_⟩
          · intro hc
            rw [← hs] at hc
            have hdata : (rest.takeWhile Char.isDigit).reverse = ([] : List Char) :=
              congrArg String.data hc
            exact hdne (by simpa using congrArg List.reverse hdata)
          · rw [← hs]
            show (rest.takeWhile Char.isDigit).reverse.all Char.isDigit = true
            rw [List.all_reverse]
            exact List.all_takeWhile ..
          · apply String.ext
            show url.data = ((tail.reverse ++ ['-']) ++ s.data) ++ ['.', 'h', 't', 'm', 'l']
            have hud : url.data = ('l' :: 'm' :: 't' :: 'h' :: '.' :: rest).reverse := by
              rw [← heq, List.reverse_reverse]
            have hrest : rest = rest.takeWhile Char.isDigit ++ '-' :: tail := by
              conv_lhs => rw [← List.takeWhile_append_dropWhile (p := Char.isDigit) (l := rest)]
              rw [heq2]
            have hsdata : s.data = (rest.takeWhile Char.isDigit).reverse := by
              rw [← hs]
            rw [hud, hrest, hsdata]
            simp [List.reverse_append]
      next => exact Option.noConfusion h
    next => exact Option.noConfusion h

/-- Witness for `c8_sku_derivation` at the spec's own example. -/
theorem c8_sku_derivation_witness :
    extract_sku_from_url "https://x/widget-12345.html" = some "12345" ∧
    ("12345" : String) ≠ "" ∧ ("12345" : String).data.all Char.isDigit = true ∧
    ∃ p : String, "https://x/widget-12345.html" = p ++ "-" ++ "12345" ++ ".html" := by
  have h1 := (c8_sku_derivation "https://x/widget-12345.html").1 "https://x/widget"
    "12345" (by decide) (by decide) rfl
  have h2 := (c8_sku_derivation "https://x/widget-12345.html").2 "12345" h1
  exact ⟨h1, h2⟩

/-- C7: any HTML body containing a bot-protection marker ("PerimeterX" or
"px-captcha") is classified as blocked, regardless of the JSON-LD blocks or meta
tags also present in the document — the marker check is the first thing
`parse_price_from_html` does. -/
theorem c7_bot_block_precedes_parsing (doc : HtmlDoc) (url : String)
    (h : hasBotMarkers doc.body = true) :
    parse_price_from_html doc url = ParseResult.blocked := by
  simp [parse_price_from_html, h]

/-- Witness for `c7_bot_block_precedes_parsing`: a body with the marker together
with an otherwise perfectly valid Product block and meta price. -/
theorem c7_bot_block_witness :
    hasBotMarkers "<html>PerimeterX challenge page</html>" = true ∧
    parse_price_from_html
      ⟨"<html>PerimeterX challenge page</html>",
       [LdCandidate.parsed (some "Product") (some "Saw") (some "7") (some "99") (some "InStock")],
       some "99", some "Saw"⟩ "https://x/saw-7.html" = ParseResult.blocked :=
  ⟨by decide, c7_bot_block_precedes_parsing _ _ (by decide)⟩

/-- C6: when every attempt ends in a soft failure, `fetch_price` performs exactly
`MAX_RETRIES = 3` attempts and returns the exhausted-retries error dict carrying
the last recorded failure reason. -/
theorem c6_retry_budget (att : Nat → AttemptOutcome) (url : String) (r0 r1 r2 : String)
    (h0 : attemptStep url (att 0) = Sum.inl r0)
    (h1 : attemptStep url (att 1) = Sum.inl r1)
    (h2 : attemptStep url (att 2) = Sum.inl r2) :
    fetch_price att url = FetchResult.error ("Failed after 3 attempts: " ++ r2) ∧
    fetch_price_attempts att url = 3 := by
  have hrange : (List.range MAX_RETRIES).map att = [att 0, att 1, att 2] := rfl
  have hmsg : "Failed after " ++ toString MAX_RETRIES ++ " attempts: " =
      "Failed after 3 attempts: " := by decide
  constructor
  · simp [fetch_price, hrange, fetch_go, h0, h1, h2]
    rw [hmsg]
  · simp [fetch_price_attempts, hrange, fetch_go, h0, h1, h2]

/-- Witness for `c6_retry_budget`: a server that answers 403 on every attempt. -/
theorem c6_retry_budget_witness :
    fetch_price (fun _ => AttemptOutcome.resp 403 ⟨"", [], none, none⟩) "https://x/a-1.html" =
      FetchResult.error ("Failed after 3 attempts: " ++ "403 Forbidden") ∧
    fetch_price_attempts (fun _ => AttemptOutcome.resp 403 ⟨"", [], none, none⟩)
      "https://x/a-1.html" = 3 :=
  c6_retry_budget (fun _ => AttemptOutcome.resp 403 ⟨"", [], none, none⟩) "https://x/a-1.html"
    "403 Forbidden" "403 Forbidden" "403 Forbidden" rfl rfl rfl

/-- C9 counterexample: the Firefox User-Agent is in the pool, but the header set
built for it still carries the hard-coded Chrome brand list in `Sec-Ch-Ua`, so
the browser-brand hint does not match the chosen UA's browser family. -/
theorem c9_counterexample_firefox_chrome_brand :
    "Mozilla/5.0 (Windows NT 10.0; Win64; x64; rv:122.0) Gecko/20100101 Firefox/122.0"
      ∈ USER_AGENTS ∧
    uaFamily "Mozilla/5.0 (Windows NT 10.0; Win64; x64; rv:122.0) Gecko/20100101 Firefox/122.0"
      = BrowserFamily.firefox ∧
    brandFamily (get_headers
      "Mozilla/5.0 (Windows NT 10.0; Win64; x64; rv:122.0) Gecko/20100101 Firefox/122.0").secChUa
      = BrowserFamily.chrome ∧
    brandFamily (get_headers
      "Mozilla/5.0 (Windows NT 10.0; Win64; x64; rv:122.0) Gecko/20100101 Firefox/122.0").secChUa
      ≠ uaFamily
        "Mozilla/5.0 (Windows NT 10.0; Win64; x64; rv:122.0) Gecko/20100101 Firefox/122.0" := by
  decide

/-- C9 amended: for every User-Agent in the pool the platform hint
(`Sec-Ch-Ua-Platform`) matches the UA's operating system, but the browser-brand
hint (`Sec-Ch-Ua`) is the fixed Chrome brand list for every UA, hence of Chrome
family regardless of the UA's actual browser family. -/
theorem c9_amended_platform_matches (ua : String) (h : ua ∈ USER_AGENTS) :
    platformOS (get_headers ua).secChUaPlatform = uaOS ua ∧
    brandFamily (get_headers ua).secChUa = BrowserFamily.chrome := by
  revert h
  revert ua
  decide

/-- Witness for `c9_amended_platform_matches` at the first pool entry. -/
theorem c9_amended_platform_matches_witness :
    platformOS (get_headers
      "Mozilla/5.0 (Windows NT 10.0; Win64; x64) AppleWebKit/537.36 (KHTML, like Gecko) Chrome/121.0.0.0 Safari/537.36").secChUaPlatform
      = uaOS "Mozilla/5.0 (Windows NT 10.0; Win64; x64) AppleWebKit/537.36 (KHTML, like Gecko) Chrome/121.0.0.0 Safari/537.36" ∧
    brandFamily (get_headers
      "Mozilla/5.0 (Windows NT 10.0; Win64; x64) AppleWebKit/537.36 (KHTML, like Gecko) Chrome/121.0.0.0 Safari/537.36").secChUa
      = BrowserFamily.chrome :=
  c9_amended_platform_matches _ (by decide)

/-- C4 (code bug): coercion failure skips a candidate only on the JSON-LD path.
First conjunct: a Product block whose price does not coerce is skipped and the
next block is used. Second conjunct: the same failure in the `og:price:amount`
fallback is NOT caught — `float(og_price.group(1))` at line 124 raises
`ValueError` out of the extraction instead of yielding the Unparseable result
the spec requires. -/
theorem c4_coercion_skip_vs_fallback_raise :
    parse_price_from_html
      ⟨"<html>two blocks</html>",
       [LdCandidate.parsed (some "Product") (some "A") none (some "oops") (some "InStock"),
        LdCandidate.parsed (some "Product") (some "B") (some "57") (some "42") (some "InStock")],
       none, none⟩ "https://x/a-57.html"
      = ParseResult.record ⟨some "B", some "57", 42, "InStock"⟩ ∧
    parse_price_from_html
      ⟨"<html>meta only</html>",
       [LdCandidate.parsed (some "Product") none none (some "oops") none],
       some "N/A", some "Tool"⟩ "https://x/tool-9.html"
      = ParseResult.raised := by
  decide

/-- C2 (code bug): a per-target failure that escapes the error taxonomy aborts
the whole run. The first target's page carries `og:price:amount = "N/A"` (no
JSON-LD block): `float("N/A")` raises `ValueError`, which neither
`fetch_price` (it only catches `requests.RequestException`) nor `check_prices`
catches, so the run returns nothing and the second target — whose page is
perfectly parseable — is never reached. -/
theorem c2_unparseable_price_aborts_run :
    check_prices
      (fun i _ => if i = 0
        then AttemptOutcome.resp 200 ⟨"<html>bad</html>", [], some "N/A", none⟩
        else AttemptOutcome.resp 200
          ⟨"<html>good</html>",
           [LdCandidate.parsed (some "Product") (some "Drill") (some "64545") (some "29.99") (some "InStock")],
           none, none⟩)
      "2024-01-01T00:00:00"
      [⟨"https://x/tool-1.html", some 10, some "Tool"⟩,
       ⟨"https://x/drill-64545.html", some 50, some "Drill"⟩]
      [] = none := by
  decide

/-- C5: for a target whose fetch/extraction ends in an error outcome (exhausted
retries after blocks or transient errors, or an unparseable page), the loop
iteration keeps the alert list unchanged, copies the prior entry for the
target's SKU key into the new state verbatim when one exists, creates no entry
(leaves the state untouched) when none exists, and alters no other key. -/
theorem c5_carry_forward_exact (att : Nat → AttemptOutcome) (ts : String) (prior : Snapshot)
    (st : RunState) (item : Item) (msg : String)
    (hf : fetch_price att item.url = FetchResult.error msg) :
    ∃ st', check_item att ts prior st item = some st' ∧
      st'.alerts = st.alerts ∧
      (∀ e, dget prior (sku_key item.url) = some e →
        dget st'.prices (sku_key item.url) = some e) ∧
      (dget prior (sku_key item.url) = none → st'.prices = st.prices) ∧
      (∀ k, k ≠ sku_key item.url → dget st'.prices k = dget st.prices k) := by
  refine ⟨_, check_item_error_spec att ts prior st item msg hf, rfl, ?_, ?_, ?_⟩
  · intro e he
    simp only [he]
    exact dget_dinsert_self ..
  · intro he
    simp only [he]
  · intro k hk
    cases hp : dget prior (sku_key item.url) with
    | none => simp
    | some e =>
      simp only
      exact dget_dinsert_ne _ _ _ _ hk

/-- Witness for `c5_carry_forward_exact`: a fetch that 403s every attempt, a
prior snapshot holding the target's SKU. -/
theorem c5_carry_forward_exact_witness :
    ∃ st', check_item (fun _ => AttemptOutcome.resp 403 ⟨"", [], none, none⟩) "now"
        [("123", ⟨79, some "Drill", "https://x/drill-123.html", "old"⟩)]
        ⟨[], [], []⟩ ⟨"https://x/drill-123.html", some 50, some "Drill"⟩ = some st' ∧
      st'.alerts = ([] : List Alert) ∧
      (∀ e, dget [("123", ⟨79, some "Drill", "https://x/drill-123.html", "old"⟩)]
          (sku_key "https://x/drill-123.html") = some e →
        dget st'.prices (sku_key "https://x/drill-123.html") = some e) ∧
      (dget [("123", ⟨79, some "Drill", "https://x/drill-123.html", "old"⟩)]
          (sku_key "https://x/drill-123.html") = none → st'.prices = []) ∧
      (∀ k, k ≠ sku_key "https://x/drill-123.html" →
        dget st'.prices k = dget ([] : Snapshot) k) :=
  c5_carry_forward_exact (fun _ => AttemptOutcome.resp 403 ⟨"", [], none, none⟩) "now"
    [("123", ⟨79, some "Drill", "https://x/drill-123.html", "old"⟩)] ⟨[], [], []⟩
    ⟨"https://x/drill-123.html", some 50, some "Drill"⟩
    "Failed after 3 attempts: 403 Forbidden" (by decide)

theorem was_below_py_iff (prior : Snapshot) (k : String) (t : Rat) :
    was_below_py ((dget prior k).map SnapshotEntry.price) t = false ↔
      ¬∃ e, dget prior k = some e ∧ e.price ≤ t := by
  cases hp : dget prior k with
  | none => simp [was_below_py]
  | some e => simp [was_below_py]

theorem check_prices_single (env : Nat → Nat → AttemptOutcome) (ts : String)
    (it : Item) (prior : Snapshot) :
    check_prices env ts [it] prior = check_item (env 0) ts prior ⟨[], [], []⟩ it := by
  simp only [check_prices, check_prices_go]
  cases h : check_item (env 0) ts prior ⟨[], [], []⟩ it with
  | none => simp [h]
  | some st' => simp [h, check_prices_go]

/-- C3 counterexample: a threshold of 0 is configured and the fetched price 0 is
at the threshold with no prior entry, so the claim demands an alert; the code
produces none, because `if threshold and ...` at line 206 is false for the falsy
float 0. (The price 0 arises from the source's own `offers.get("price", 0)`
default.) -/
theorem c3_counterexample_zero_threshold :
    check_prices (fun _ _ => AttemptOutcome.resp 200
        ⟨"<html>free item</html>",
         [LdCandidate.parsed (some "Product") (some "Free") none none none], none, none⟩)
      "t" [⟨"https://x/item-5.html", some 0, none⟩] [] =
      some ⟨[], [("5", ⟨0, some "Free", "https://x/item-5.html", "t"⟩)], []⟩ := by
  decide

/-- C3 amended: for a successfully fetched record and a configured threshold t,
the iteration writes the fresh entry and appends an alert exactly when t is
nonzero AND price ≤ t AND no prior entry at or below t exists (boundary: ≤, so a
price equal to t crosses); and across three single-target runs with prices t+1,
t-1, t-1 (t nonzero) exactly one alert is produced, on the second run. The
original claim's "threshold is configured" must be strengthened to "configured
and nonzero": Python's `if threshold` is false for a configured threshold of 0
(see the counterexample). -/
theorem c3_amended_edge_triggered :
    (∀ (att : Nat → AttemptOutcome) (ts : String) (prior : Snapshot) (st : RunState)
       (item : Item) (t : Rat) (r : PriceRecord),
       item.threshold = some t → fetch_price att item.url = FetchResult.record r →
       ∃ st', check_item att ts prior st item = some st' ∧
         st'.prices = dinsert st.prices (sku_key item.url) ⟨r.price, r.name, item.url, ts⟩ ∧
         st'.alerts = st.alerts ++
           (if t ≠ 0 ∧ r.price ≤ t ∧
               was_below_py ((dget prior (sku_key item.url)).map SnapshotEntry.price) t = false
            then [⟨pyOr r.name (item.name.getD "Unknown Item"), sku_key item.url, r.price, t,
                   (dget prior (sku_key item.url)).map SnapshotEntry.price, item.url⟩]
            else []) ∧
         (was_below_py ((dget prior (sku_key item.url)).map SnapshotEntry.price) t = false ↔
           ¬∃ e, dget prior (sku_key item.url) = some e ∧ e.price ≤ t)) ∧
    (∀ (e1 e2 e3 : Nat → Nat → AttemptOutcome) (ts1 ts2 ts3 : String) (p0 : Snapshot)
       (url : String) (nm : Option String) (t : Rat) (r1 r2 r3 : PriceRecord),
       t ≠ 0 →
       fetch_price (e1 0) url = FetchResult.record r1 → r1.price = t + 1 →
       fetch_price (e2 0) url = FetchResult.record r2 → r2.price = t - 1 →
       fetch_price (e3 0) url = FetchResult.record r3 → r3.price = t - 1 →
       ∃ s1 s2 s3,
         check_prices e1 ts1 [⟨url, some t, nm⟩] p0 = some s1 ∧
         check_prices e2 ts2 [⟨url, some t, nm⟩] s1.prices = some s2 ∧
         check_prices e3 ts3 [⟨url, some t, nm⟩] s2.prices = some s3 ∧
         s1.alerts = [] ∧ s2.alerts.length = 1 ∧ s3.alerts = []) := by
  constructor
  · intro att ts prior st item t r hT hf
    exact ⟨_, check_item_success_spec att ts prior st item t r hT hf, rfl, rfl,
      was_below_py_iff prior (sku_key item.url) t⟩
  · intro e1 e2 e3 ts1 ts2 ts3 p0 url nm t r1 r2 r3 ht hf1 hp1 hf2 hp2 hf3 hp3
    have h1 := check_item_success_spec (e1 0) ts1 p0 ⟨[], [], []⟩ ⟨url, some t, nm⟩ t r1 rfl hf1
    have hc1 : ¬(t ≠ 0 ∧ r1.price ≤ t ∧
        was_below_py ((dget p0 (sku_key url)).map SnapshotEntry.price) t = false) := by
      rintro ⟨-, hle, -⟩
      rw [hp1] at hle
      linarith
    rw [if_neg hc1] at h1
    have hrun1 : check_prices e1 ts1 [⟨url, some t, nm⟩] p0 =
        some ⟨[], dinsert [] (sku_key url) ⟨r1.price, r1.name, url, ts1⟩, []⟩ := by
      rw [check_prices_single, h1]
      simp
    have hget1 : dget (dinsert [] (sku_key url) ⟨r1.price, r1.name, url, ts1⟩) (sku_key url) =
        some ⟨r1.price, r1.name, url, ts1⟩ := dget_dinsert_self ..
    have h2s := check_item_success_spec (e2 0) ts2
      (dinsert [] (sku_key url) ⟨r1.price, r1.name, url, ts1⟩) ⟨[], [], []⟩
      ⟨url, some t, nm⟩ t r2 rfl hf2
    have hwb2 : was_below_py ((dget (dinsert [] (sku_key url) ⟨r1.price, r1.name, url, ts1⟩)
        (sku_key url)).map SnapshotEntry.price) t = false := by
      rw [hget1]
      have hnle : ¬(r1.price ≤ t) := by
        rw [hp1]
        intro hle
        linarith
      simp [was_below_py, hnle]
    have hc2 : t ≠ 0 ∧ r2.price ≤ t ∧
        was_below_py ((dget (dinsert [] (sku_key url) ⟨r1.price, r1.name, url, ts1⟩)
          (sku_key url)).map SnapshotEntry.price) t = false := by
      refine ⟨ht, ?_, hwb2⟩
      rw [hp2]
      linarith
    rw [if_pos hc2] at h2s
    have hrun2 : check_prices e2 ts2 [⟨url, some t, nm⟩]
        (dinsert [] (sku_key url) ⟨r1.price, r1.name, url, ts1⟩) =
        some ⟨[⟨pyOr r2.name (nm.getD "Unknown Item"), sku_key url, r2.price, t,
                (dget (dinsert [] (sku_key url) ⟨r1.price, r1.name, url, ts1⟩)
                  (sku_key url)).map SnapshotEntry.price, url⟩],
              dinsert [] (sku_key url) ⟨r2.price, r2.name, url, ts2⟩, []⟩ := by
      rw [check_prices_single, h2s]
      simp
    have hget2 : dget (dinsert [] (sku_key url) ⟨r2.price, r2.name, url, ts2⟩) (sku_key url) =
        some ⟨r2.price, r2.name, url, ts2⟩ := dget_dinsert_self ..
    have h3s := check_item_success_spec (e3 0) ts3
      (dinsert [] (sku_key url) ⟨r2.price, r2.name, url, ts2⟩) ⟨[], [], []⟩
      ⟨url, some t, nm⟩ t r3 rfl hf3
    have hwb3 : was_below_py ((dget (dinsert [] (sku_key url) ⟨r2.price, r2.name, url, ts2⟩)
        (sku_key url)).map SnapshotEntry.price) t = true := by
      rw [hget2]
      have hle : r2.price ≤ t := by
        rw [hp2]
        linarith
      simp [was_below_py, hle]
    have hc3 : ¬(t ≠ 0 ∧ r3.price ≤ t ∧
        was_below_py ((dget (dinsert [] (sku_key url) ⟨r2.price, r2.name, url, ts2⟩)
          (sku_key url)).map SnapshotEntry.price) t = false) := by
      rintro ⟨-, -, hw⟩
      rw [hwb3] at hw
      exact Bool.noConfusion hw
    rw [if_neg hc3] at h3s
    have hrun3 : check_prices e3 ts3 [⟨url, some t, nm⟩]
        (dinsert [] (sku_key url) ⟨r2.price, r2.name, url, ts2⟩) =
        some ⟨[], dinsert [] (sku_key url) ⟨r3.price, r3.name, url, ts3⟩, []⟩ := by
      rw [check_prices_single, h3s]
      simp
    exact ⟨_, _, _, hrun1, hrun2, hrun3, rfl, rfl, rfl⟩

/-- Witness for `c3_amended_edge_triggered`: threshold 10, prices 11, 9, 9 over
three runs. -/
theorem c3_amended_edge_triggered_witness :
    ∃ s1 s2 s3,
      check_prices (fun _ _ => AttemptOutcome.resp 200
          ⟨"p1", [LdCandidate.parsed (some "Product") (some "W") (some "3") (some "11") (some "InStock")], none, none⟩)
        "t1" [⟨"https://x/w-3.html", some 10, none⟩] [] = some s1 ∧
      check_prices (fun _ _ => AttemptOutcome.resp 200
          ⟨"p2", [LdCandidate.parsed (some "Product") (some "W") (some "3") (some "9") (some "InStock")], none, none⟩)
        "t2" [⟨"https://x/w-3.html", some 10, none⟩] s1.prices = some s2 ∧
      check_prices (fun _ _ => AttemptOutcome.resp 200
          ⟨"p3", [LdCandidate.parsed (some "Product") (some "W") (some "3") (some "9") (some "InStock")], none, none⟩)
        "t3" [⟨"https://x/w-3.html", some 10, none⟩] s2.prices = some s3 ∧
      s1.alerts = [] ∧ s2.alerts.length = 1 ∧ s3.alerts = [] :=
  c3_amended_edge_triggered.2
    (fun _ _ => AttemptOutcome.resp 200
      ⟨"p1", [LdCandidate.parsed (some "Product") (some "W") (some "3") (some "11") (some "InStock")], none, none⟩)
    (fun _ _ => AttemptOutcome.resp 200
      ⟨"p2", [LdCandidate.parsed (some "Product") (some "W") (some "3") (some "9") (some "InStock")], none, none⟩)
    (fun _ _ => AttemptOutcome.resp 200
      ⟨"p3", [LdCandidate.parsed (some "Product") (some "W") (some "3") (some "9") (some "InStock")], none, none⟩)
    "t1" "t2" "t3" [] "https://x/w-3.html" none 10
    ⟨some "W", some "3", 11, "InStock"⟩ ⟨some "W", some "3", 9, "InStock"⟩
    ⟨some "W", some "3", 9, "InStock"⟩
    (by norm_num) (by decide) (by norm_num) (by decide) (by norm_num) (by decide) (by norm_num)

theorem check_prices_pair (env : Nat → Nat → AttemptOutcome) (ts : String)
    (it1 it2 : Item) (prior : Snapshot) (st1 st2 : RunState)
    (h1 : check_item (env 0) ts prior ⟨[], [], []⟩ it1 = some st1)
    (h2 : check_item (env 1) ts prior st1 it2 = some st2) :
    check_prices env ts [it1, it2] prior = some st2 := by
  simp only [check_prices, check_prices_go, h1, Nat.zero_add, h2]

/-- C10: a target whose URL yields no SKU is keyed by the literal string
"unknown". First conjunct: two SKU-less targets that both succeed write the same
"unknown" snapshot entry and the second overwrites the first, so the final
snapshot holds only the last target's data. Second conjunct: the prior lookup
also uses "unknown" — a prior "unknown" entry at or below the threshold
suppresses the alert for an unrelated SKU-less target. -/
theorem c10_skuless_targets_share_unknown_key :
    (∀ (env : Nat → Nat → AttemptOutcome) (ts : String) (prior : Snapshot)
       (u1 u2 : String) (n1 n2 : Option String) (t1 t2 : Rat) (r1 r2 : PriceRecord),
       extract_sku_from_url u1 = none → extract_sku_from_url u2 = none →
       fetch_price (env 0) u1 = FetchResult.record r1 →
       fetch_price (env 1) u2 = FetchResult.record r2 →
       ∃ st, check_prices env ts [⟨u1, some t1, n1⟩, ⟨u2, some t2, n2⟩] prior = some st ∧
         st.prices = [("unknown", ⟨r2.price, r2.name, u2, ts⟩)]) ∧
    (∀ (env : Nat → Nat → AttemptOutcome) (ts : String) (prior : Snapshot)
       (u : String) (nm : Option String) (t : Rat) (r : PriceRecord) (e : SnapshotEntry),
       extract_sku_from_url u = none →
       fetch_price (env 0) u = FetchResult.record r →
       dget prior "unknown" = some e → e.price ≤ t →
       ∃ st, check_prices env ts [⟨u, some t, nm⟩] prior = some st ∧ st.alerts = []) := by
  constructor
  · intro env ts prior u1 u2 n1 n2 t1 t2 r1 r2 hs1 hs2 hf1 hf2
    have hk1 : sku_key u1 = "unknown" := by simp [sku_key, hs1]
    have hk2 : sku_key u2 = "unknown" := by simp [sku_key, hs2]
    obtain ⟨st1, hst1, hst1p⟩ :
        ∃ st1, check_item (env 0) ts prior ⟨[], [], []⟩ ⟨u1, some t1, n1⟩ = some st1 ∧
          st1.prices = dinsert [] (sku_key u1) ⟨r1.price, r1.name, u1, ts⟩ :=
      ⟨_, check_item_success_spec (env 0) ts prior ⟨[], [], []⟩ ⟨u1, some t1, n1⟩ t1 r1 rfl hf1, rfl⟩
    have h2 := check_item_success_spec (env 1) ts prior st1 ⟨u2, some t2, n2⟩ t2 r2 rfl hf2
    refine ⟨_, check_prices_pair env ts _ _ prior st1 _ hst1 h2, ?_⟩
    dsimp only
    rw [hst1p, hk1, hk2]
    simp [dinsert]
  · intro env ts prior u nm t r e hs hf hp hle
    have hk : sku_key u = "unknown" := by simp [sku_key, hs]
    have h1 := check_item_success_spec (env 0) ts prior ⟨[], [], []⟩ ⟨u, some t, nm⟩ t r rfl hf
    have hc : ¬(t ≠ 0 ∧ r.price ≤ t ∧
        was_below_py ((dget prior (sku_key ((⟨u, some t, nm⟩ : Item)).url)).map
          SnapshotEntry.price) t = false) := by
      rintro ⟨-, -, hw⟩
      dsimp only at hw
      rw [hk, hp] at hw
      simp [was_below_py, hle] at hw
    rw [if_neg hc] at h1
    obtain ⟨st', hst', hal⟩ :
        ∃ st', check_item (env 0) ts prior ⟨[], [], []⟩ ⟨u, some t, nm⟩ = some st' ∧
          st'.alerts = [] :=
      ⟨_, h1, rfl⟩
    refine ⟨st', ?_, hal⟩
    rw [check_prices_single]
    exact hst'

/-- Witness for `c10_skuless_targets_share_unknown_key`: two URLs without the
SKU pattern; and a prior "unknown" entry that suppresses an alert. -/
theorem c10_skuless_targets_share_unknown_key_witness :
    (∃ st, check_prices
        (fun i _ => if i = 0
          then AttemptOutcome.resp 200
            ⟨"a", [LdCandidate.parsed (some "Product") (some "A") none (some "5") (some "InStock")], none, none⟩
          else AttemptOutcome.resp 200
            ⟨"b", [LdCandidate.parsed (some "Product") (some "B") none (some "7") (some "InStock")], none, none⟩)
        "ts" [⟨"https://x/page-one", some 10, none⟩, ⟨"https://x/page-two", some 20, none⟩] []
        = some st ∧
      st.prices = [("unknown",
        ⟨(⟨some "B", none, 7, "InStock"⟩ : PriceRecord).price,
         (⟨some "B", none, 7, "InStock"⟩ : PriceRecord).name, "https://x/page-two", "ts"⟩)]) ∧
    (∃ st, check_prices
        (fun _ _ => AttemptOutcome.resp 200
          ⟨"a", [LdCandidate.parsed (some "Product") (some "A") none (some "5") (some "InStock")], none, none⟩)
        "ts" [⟨"https://x/page-one", some 10, none⟩]
        [("unknown", ⟨5, none, "u", "old"⟩)] = some st ∧
      st.alerts = []) :=
  ⟨c10_skuless_targets_share_unknown_key.1
      (fun i _ => if i = 0
        then AttemptOutcome.resp 200
          ⟨"a", [LdCandidate.parsed (some "Product") (some "A") none (some "5") (some "InStock")], none, none⟩
        else AttemptOutcome.resp 200
          ⟨"b", [LdCandidate.parsed (some "Product") (some "B") none (some "7") (some "InStock")], none, none⟩)
      "ts" [] "https://x/page-one" "https://x/page-two" none none 10 20
      ⟨some "A", none, 5, "InStock"⟩ ⟨some "B", none, 7, "InStock"⟩
      (by decide) (by decide) (by decide) (by decide),
   c10_skuless_targets_share_unknown_key.2
      (fun _ _ => AttemptOutcome.resp 200
        ⟨"a", [LdCandidate.parsed (some "Product") (some "A") none (some "5") (some "InStock")], none, none⟩)
      "ts" [("unknown", ⟨5, none, "u", "old"⟩)] "https://x/page-one" none 10
      ⟨some "A", none, 5, "InStock"⟩ ⟨5, none, "u", "old"⟩
      (by decide) (by decide) (by decide) (by decide)⟩

/-- C1 counterexample: the prior snapshot holds SKU "12345" but the run's
watchlist is empty, and the run completes with an empty snapshot — the prior
entry is dropped, so `keys(newSnapshot) ⊇ keys(priorSnapshot)` fails for runs
whose watchlist does not cover a prior SKU. (`check_prices` builds `new_state`
from scratch at line 170 and only ever copies entries for SKUs of this run's
targets.) -/
theorem c1_counterexample_unwatched_sku_dropped :
    check_prices (fun _ _ => AttemptOutcome.exc "connection error") "t" []
      [("12345", ⟨99, some "Widget", "https://x/w-12345.html", "old"⟩)] =
      some ⟨[], [], []⟩ ∧
    "12345" ∈ dkeys [("12345", ⟨99, some "Widget", "https://x/w-12345.html", "old"⟩)] ∧
    "12345" ∉ dkeys ([] : Snapshot) := by
  decide

/-- C1 amended: snapshot-key monotonicity restricted to this run's targets. For
every run that completes, every SKU key of the prior snapshot that is also the
snapshot key of at least one target in this run's watchlist is present in the
new snapshot — regardless of whether that target's fetch succeeds. Prior keys
not covered by any target of this run are dropped (see the counterexample), and
an aborted run produces no snapshot at all. -/
theorem c1_amended_snapshot_keys_monotone (env : Nat → Nat → AttemptOutcome) (ts : String)
    (items : List Item) (prior : Snapshot) (st : RunState)
    (h : check_prices env ts items prior = some st) :
    ∀ k ∈ dkeys prior, (∃ item ∈ items, sku_key item.url = k) → k ∈ dkeys st.prices := by
  intro k hk hmem
  rw [mem_dkeys_iff] at hk ⊢
  exact check_prices_go_prior_key env ts prior items 0 ⟨[], [], []⟩ st k h hk hmem

/-- Witness for `c1_amended_snapshot_keys_monotone`: the single target's fetch
fails on every attempt, yet its prior entry's key survives into the new
snapshot. -/
theorem c1_amended_snapshot_keys_monotone_witness :
    "12345" ∈ dkeys (RunState.prices
      ⟨[], [("12345", ⟨99, some "Widget", "https://x/w-12345.html", "old"⟩)],
       ["  Error: Failed after 3 attempts: 403 Forbidden"]⟩) :=
  c1_amended_snapshot_keys_monotone
    (fun _ _ => AttemptOutcome.resp 403 ⟨"", [], none, none⟩) "t"
    [⟨"https://x/w-12345.html", some 10, none⟩]
    [("12345", ⟨99, some "Widget", "https://x/w-12345.html", "old"⟩)]
    ⟨[], [("12345", ⟨99, some "Widget", "https://x/w-12345.html", "old"⟩)],
     ["  Error: Failed after 3 attempts: 403 Forbidden"]⟩
    (by decide) "12345" (by decide)
    ⟨⟨"https://x/w-12345.html", some 10, none⟩, by decide, by decide⟩
